import Mathlib

/-!
Verification of the subcontracting claim/reservation/payment-finalization
state machine of the jabadriver VTC backend (src/backend/subcontracting.py).

Shallow embedding conventions:
* The Mongo document store becomes an explicit `Store` record of lists;
  `find_one` is `List.find?`, `update_one` / `find_one_and_update` patch the
  first matching element (`updateFirst`), mirroring Mongo's single-document
  update semantics.
* Timestamps are integers (seconds); `datetime.now(timezone.utc)` becomes an
  explicit `now : Int` argument threaded through each operation.
* Python floats carrying euro amounts are modelled as exact rationals;
  `round(x, 2)` is round-half-even to 2 decimals on the exact value and
  `int(x)` is truncation toward zero.
* `datetime.fromisoformat` on the course's date/time strings is an explicit
  parameter `parseDT` (returning `none` where the library would raise).
* E-mail sending and activity-log insertion are write-only side channels never
  read by any lifecycle operation; they are elided from the store.
* The Stripe gateway is a parameter: session retrieval is a function from
  session id to a result (`GatewayAnswer`), and session creation is modelled
  as succeeding with a caller-supplied fresh session id (its failure path only
  re-raises an HTTP 500 before any store write).
-/

namespace VtcApp

/-- COMMISSION_RATE = 0.10 (module-level constant in subcontracting.py). -/
def COMMISSION_RATE : ℚ := 1 / 10

/-- RESERVATION_DURATION_MINUTES = 3. -/
def RESERVATION_DURATION_MINUTES : ℤ := 3

/-- CLAIM_TOKEN_EXPIRY_MINUTES = 30. -/
def CLAIM_TOKEN_EXPIRY_MINUTES : ℤ := 30

/-- Round-half-even of a rational to an integer (Python's rounding of an
exact value at a tie chooses the even neighbour). -/
def roundHalfEven (q : ℚ) : ℤ :=
  let f := ⌊q⌋
  let r := q - (f : ℚ)
  if r < 1 / 2 then f
  else if 1 / 2 < r then f + 1
  else if f % 2 = 0 then f else f + 1

/-- Python `round(x, 2)`: decimal rounding of the exact value to 2 places,
half to even. -/
def roundTo2 (q : ℚ) : ℚ := (roundHalfEven (q * 100) : ℚ) / 100

/-- Python `int(x)`: truncation toward zero. -/
def intTrunc (q : ℚ) : ℤ := if 0 ≤ q then ⌊q⌋ else ⌈q⌉

/-- CourseStatusEnum from subcontracting.py. -/
inductive CourseStatus where
  | OPEN
  | RESERVED
  | ASSIGNED
  | DONE
  | CANCELLED
  | CANCELLED_LATE_DRIVER
  | CANCELLED_LATE_CLIENT
deriving DecidableEq, Repr

/-- The `Course` document (lifecycle-relevant fields of the pydantic model). -/
structure Course where
  id : String
  client_name : String
  client_email : String
  client_phone : String
  pickup_address : String
  dropoff_address : String
  date : String
  time : String
  distance_km : Option ℚ
  price_total : ℚ
  notes : Option String
  admin_notes : Option String
  status : CourseStatus
  reserved_by_driver_id : Option String
  reserved_until : Option ℤ
  assigned_driver_id : Option String
  assigned_at : Option ℤ
  commission_rate : ℚ
  commission_amount : ℚ
  commission_paid : Bool
  commission_paid_at : Option ℤ
  cancelled_at : Option ℤ
  cancelled_by : Option String
  is_late_cancellation : Bool
deriving DecidableEq, Repr

/-- The `Driver` document (fields read by the claim-flow operations). -/
structure Driver where
  id : String
  email : String
  name : String
  is_active : Bool
  late_cancellation_count : ℕ
deriving DecidableEq, Repr

/-- The `ClaimToken` document. -/
structure ClaimToken where
  id : String
  course_id : String
  token : String
  expires_at : ℤ
deriving DecidableEq, Repr

/-- The `CommissionPayment` document. -/
structure CommissionPayment where
  id : String
  course_id : String
  driver_id : String
  session_id : Option String
  amount : ℚ
  currency : String
  status : String
  paid_at : Option ℤ
  provider_payment_id : Option String
deriving DecidableEq, Repr

/-- The document store: one list per Mongo collection used by the claim flow. -/
structure Store where
  courses : List Course
  drivers : List Driver
  claim_tokens : List ClaimToken
  commission_payments : List CommissionPayment
deriving DecidableEq, Repr

/-- An HTTPException: status code and detail message. -/
structure ApiError where
  status_code : ℕ
  detail : String
deriving DecidableEq, Repr

/-- Mongo `update_one`: patch the first element matching the filter. -/
def updateFirst {α : Type} (l : List α) (filter : α → Bool) (patch : α → α) :
    List α :=
  match l with
  | [] => []
  | x :: rest =>
      if filter x then patch x :: rest else x :: updateFirst rest filter patch

/-- `db.courses.find_one({"id": cid})`. -/
def findCourse (s : Store) (cid : String) : Option Course :=
  s.courses.find? (fun c => c.id == cid)

/-- `db.drivers.find_one({"id": did})`. -/
def findDriver (s : Store) (did : String) : Option Driver :=
  s.drivers.find? (fun d => d.id == did)

/-- `db.claim_tokens.find_one({"token": tok})`. -/
def findClaimToken (s : Store) (tok : String) : Option ClaimToken :=
  s.claim_tokens.find? (fun t => t.token == tok)

/-- `db.commission_payments.find_one({"session_id": sid})`. -/
def findPayment (s : Store) (sid : String) : Option CommissionPayment :=
  s.commission_payments.find? (fun p => p.session_id == some sid)

/-- `db.courses.update_one({"id": cid}, {"$set": ...})`. -/
def updateCourseById (s : Store) (cid : String) (patch : Course → Course) :
    Store :=
  { s with courses := updateFirst s.courses (fun c => c.id == cid) patch }

/-- `db.drivers.update_one({"id": did}, ...)`. -/
def updateDriverById (s : Store) (did : String) (patch : Driver → Driver) :
    Store :=
  { s with drivers := updateFirst s.drivers (fun d => d.id == did) patch }

/-- `db.commission_payments.update_one({"session_id": sid}, {"$set": ...})`. -/
def updatePaymentBySession (s : Store) (sid : String)
    (patch : CommissionPayment → CommissionPayment) : Store :=
  { s with
    commission_payments :=
      updateFirst s.commission_payments (fun p => p.session_id == some sid)
        patch }

/-- A regex word character (`\w`), restricted to ASCII as used in the
addresses the code handles. -/
def isWordChar (ch : Char) : Bool := ch.isAlphanum || ch == '_'

/-- Does `l` start with exactly five digits followed by a word boundary
(end of string or a non-word character)? -/
def fiveDigitHere (l : List Char) : Bool :=
  match l with
  | c1 :: c2 :: c3 :: c4 :: c5 :: rest =>
      c1.isDigit && c2.isDigit && c3.isDigit && c4.isDigit && c5.isDigit &&
        (match rest with
         | [] => true
         | c6 :: _ => !isWordChar c6)
  | _ => false

/-- `re.search(r'\b(\d{5})\b', address)`: leftmost five-digit run delimited by
word boundaries; returns the matched digits. `prev` is the character just
before the current position (none at the start of the string). -/
def findPostal (prev : Option Char) (l : List Char) : Option String :=
  match l with
  | [] => none
  | c :: rest =>
      if (match prev with
          | none => true
          | some p => !isWordChar p) && fiveDigitHere l then
        some (String.mk (l.take 5))
      else findPostal (some c) rest

/-- `re.sub(r'\d{5}', '', s)`: drop the leftmost non-overlapping runs of
exactly five consecutive digits (no boundary requirement). -/
def removeFiveDigitRuns (l : List Char) : List Char :=
  match l with
  | c1 :: c2 :: c3 :: c4 :: c5 :: rest =>
      if c1.isDigit && c2.isDigit && c3.isDigit && c4.isDigit && c5.isDigit
      then removeFiveDigitRuns rest
      else c1 :: removeFiveDigitRuns (c2 :: c3 :: c4 :: c5 :: rest)
  | l => l
termination_by l.length
decreasing_by
  · simp
    omega
  · simp

/-- Substring test (`needle in haystack` on Python strings). -/
def containsSub (hay needle : List Char) : Bool :=
  match hay with
  | [] => needle.isEmpty
  | _ :: t => needle.isPrefixOf hay || containsSub t needle

/-- Python `s.split()`: split on whitespace runs, dropping empty pieces. -/
def splitWhitespace (s : String) : List String :=
  (s.split Char.isWhitespace).filter (fun w => w ≠ "")

/-- The `for i, part in enumerate(parts)` loop inside
`extract_city_department` once a postal code has been found: on the first
part containing the postal code, return the part with five-digit runs
removed (plus the department), else the preceding part (plus the
department) when there is one; otherwise keep scanning. `prev` holds the
previous part. -/
def cityLoop (postal dept : String) (prev : Option String) :
    List String → Option String
  | [] => none
  | part :: rest =>
      if containsSub part.data postal.data then
        let city_part := part.trim
        let city := (String.mk (removeFiveDigitRuns city_part.data)).trim
        if city ≠ "" then some (city ++ " (" ++ dept ++ ")")
        else
          match prev with
          | some p => some (p.trim ++ " (" ++ dept ++ ")")
          | none => cityLoop postal dept (some part) rest
      else cityLoop postal dept (some part) rest

/-- `extract_city_department(address)`: mask a full address down to a
city-plus-department string. -/
def extract_city_department (address : String) : String :=
  if address = "" then "Non specifie"
  else
    let parts := address.splitOn ","
    let fallback :=
      if parts.length ≥ 2 then ((parts.getLast? ).getD "").trim
      else
        let words := splitWhitespace address
        if words.length ≥ 2 then
          String.intercalate " " (words.drop (words.length - 2))
        else address.take 30 ++ "..."
    match findPostal none address.data with
    | some postal =>
        let dept := postal.take 2
        match cityLoop postal dept none parts with
        | some r => r
        | none => fallback
    | none => fallback

/-- `check_and_expire_reservation(course)`: lazy expiry sweep. If the course
is RESERVED and its `reserved_until` has passed, reset it to OPEN (clearing
the reservation fields) both in the store and in the in-memory document. -/
def check_and_expire_reservation (now : ℤ) (s : Store) (c : Course) :
    Course × Store :=
  if c.status = CourseStatus.RESERVED then
    match c.reserved_until with
    | some ru =>
        if now > ru then
          let c2 := { c with
            status := CourseStatus.OPEN
            reserved_by_driver_id := none
            reserved_until := none }
          (c2, updateCourseById s c.id (fun x => { x with
            status := CourseStatus.OPEN
            reserved_by_driver_id := none
            reserved_until := none }))
        else (c, s)
    | none => (c, s)
  else (c, s)

/-- `get_driver_from_token(authorization)`: bearer token is the driver id;
the driver must exist and be active. -/
def get_driver_from_token (s : Store) (authorization : Option String) :
    Except ApiError Driver :=
  match authorization with
  | none => Except.error ⟨401, "Token manquant"⟩
  | some auth =>
      if ¬ ("Bearer ".data.isPrefixOf auth.data) = true then
        Except.error ⟨401, "Token manquant"⟩
      else
        let tok := String.mk (auth.data.drop "Bearer ".data.length)
        match findDriver s tok with
        | none => Except.error ⟨401, "Token invalide"⟩
        | some d =>
            if d.is_active then Except.ok d
            else Except.error ⟨403, "Compte chauffeur non active"⟩

/-- `is_late_cancellation(course_date, course_time)`: true when the parsed
pickup datetime is less than one hour away (parse failure yields false). -/
def is_late_cancellation (parseDT : String → String → Option ℤ) (now : ℤ)
    (course_date course_time : String) : Bool :=
  match parseDT course_date course_time with
  | some pickup => decide (pickup - now < 3600)
  | none => false

/-- Result of a successful `reserve_course` call: either the idempotent
"already reserved by you" response (carrying the existing `reserved_until`,
no new timer) or a fresh reservation. -/
inductive ReserveOk where
  | alreadyReserved (reserved_until : Option ℤ)
  | reserved (reserved_until : ℤ) (commission_amount : ℚ)
deriving DecidableEq, Repr

/-- The patch applied by the reservation compare-and-swap. -/
def reservePatch (driver_id : String) (ru : ℤ) (c : Course) : Course :=
  { c with
    status := CourseStatus.RESERVED
    reserved_by_driver_id := some driver_id
    reserved_until := some ru }

/-- The filter of the reservation compare-and-swap: same id and persisted
status still OPEN. -/
def casOpenFilter (cid : String) (c : Course) : Bool :=
  c.id == cid && c.status == CourseStatus.OPEN

/-- `db.courses.find_one_and_update(filter, patch, return_document=True)`. -/
def find_one_and_update (s : Store) (filter : Course → Bool)
    (patch : Course → Course) : Option Course × Store :=
  match s.courses.find? filter with
  | none => (none, s)
  | some c =>
      (some (patch c), { s with courses := updateFirst s.courses filter patch })

/-- `reserve_course(token, request)`: reserve a course for 3 minutes. -/
def reserve_course (now : ℤ) (s : Store) (token : String)
    (authorization : Option String) : Except ApiError ReserveOk × Store :=
  match get_driver_from_token s authorization with
  | Except.error e => (Except.error e, s)
  | Except.ok driver =>
      match findClaimToken s token with
      | none => (Except.error ⟨404, "Lien invalide"⟩, s)
      | some claim =>
          if now > claim.expires_at then (Except.error ⟨410, "Lien expire"⟩, s)
          else
            match findCourse s claim.course_id with
            | none => (Except.error ⟨404, "Course non trouvee"⟩, s)
            | some course0 =>
                let cs := check_and_expire_reservation now s course0
                let course := cs.1
                let s1 := cs.2
                if course.status = CourseStatus.ASSIGNED then
                  (Except.error
                    ⟨409, "Desole, cette course est deja attribuee a un autre chauffeur"⟩,
                   s1)
                else if course.status = CourseStatus.RESERVED then
                  if course.reserved_by_driver_id = some driver.id then
                    (Except.ok (ReserveOk.alreadyReserved course.reserved_until),
                     s1)
                  else
                    (Except.error
                      ⟨409, "Course deja reservee par un autre chauffeur"⟩, s1)
                else if course.status ≠ CourseStatus.OPEN then
                  (Except.error ⟨409, "Course non disponible"⟩, s1)
                else
                  let ru := now + RESERVATION_DURATION_MINUTES * 60
                  let res := find_one_and_update s1
                    (casOpenFilter claim.course_id)
                    (reservePatch driver.id ru)
                  match res.1 with
                  | none =>
                      (Except.error
                        ⟨409, "Course non disponible - un autre chauffeur a ete plus rapide"⟩,
                       res.2)
                  | some _ =>
                      (Except.ok (ReserveOk.reserved ru
                        (roundTo2 (course.price_total * COMMISSION_RATE))),
                       res.2)

/-- The masked (or, once ASSIGNED, full) course view returned by the claim
page. -/
structure ClaimCourseView where
  id : String
  client_name : String
  pickup_location : String
  dropoff_location : String
  pickup_address : Option String
  dropoff_address : Option String
  date : String
  time : String
  distance_km : Option ℚ
  price_total : ℚ
  client_phone : Option String
  client_email : Option String
  notes : Option String
  status : CourseStatus
deriving DecidableEq, Repr

/-- The `get_claim_info` response. -/
structure ClaimInfo where
  course : ClaimCourseView
  commission_rate : ℚ
  commission_amount : ℚ
  reserved_by : Option String
  time_remaining_seconds : Option ℤ
  claim_expires_at : ℤ
  is_assigned : Bool
deriving DecidableEq, Repr

/-- `get_claim_info(token)`: public claim view, masked until ASSIGNED. -/
def get_claim_info (now : ℤ) (s : Store) (token : String) :
    Except ApiError ClaimInfo × Store :=
  match findClaimToken s token with
  | none => (Except.error ⟨404, "Lien invalide ou expire"⟩, s)
  | some claim =>
      if now > claim.expires_at then (Except.error ⟨410, "Lien expire"⟩, s)
      else
        match findCourse s claim.course_id with
        | none => (Except.error ⟨404, "Course non trouvee"⟩, s)
        | some course0 =>
            let cs := check_and_expire_reservation now s course0
            let course := cs.1
            let s1 := cs.2
            let commission_amount :=
              roundTo2 (course.price_total * COMMISSION_RATE)
            let reserved_driver_name :=
              if course.status = CourseStatus.RESERVED then
                match course.reserved_by_driver_id with
                | some did =>
                    match findDriver s1 did with
                    | some d => some d.name
                    | none => none
                | none => none
              else none
            let time_remaining :=
              if course.status = CourseStatus.RESERVED ∧
                  course.reserved_by_driver_id ≠ none then
                match course.reserved_until with
                | some ru => some (max 0 (ru - now))
                | none => none
              else none
            let is_assigned := course.status = CourseStatus.ASSIGNED
            (Except.ok
              { course :=
                  { id := course.id
                    client_name := course.client_name
                    pickup_location := extract_city_department course.pickup_address
                    dropoff_location := extract_city_department course.dropoff_address
                    pickup_address :=
                      if is_assigned then some course.pickup_address else none
                    dropoff_address :=
                      if is_assigned then some course.dropoff_address else none
                    date := course.date
                    time := course.time
                    distance_km := course.distance_km
                    price_total := course.price_total
                    client_phone :=
                      if is_assigned then some course.client_phone else none
                    client_email :=
                      if is_assigned then some course.client_email else none
                    notes := if is_assigned then course.notes else none
                    status := course.status }
                commission_rate := COMMISSION_RATE
                commission_amount := commission_amount
                reserved_by := reserved_driver_name
                time_remaining_seconds := time_remaining
                claim_expires_at := claim.expires_at
                is_assigned := is_assigned },
             s1)

/-- The patch `finalize_attribution` applies to the course document. -/
def assignPatch (now : ℤ) (driver_id : String) (commission : ℚ)
    (c : Course) : Course :=
  { c with
    status := CourseStatus.ASSIGNED
    assigned_driver_id := some driver_id
    assigned_at := some now
    commission_amount := commission
    commission_paid := true
    commission_paid_at := some now
    reserved_by_driver_id := none
    reserved_until := none }

/-- `finalize_attribution(course_id, driver_id, payment_session_id)`: the
idempotent choke point turning payment success into assignment. Returns the
boolean the Python function returns plus the updated store. The notification
e-mail block (which only reads documents) is elided. -/
def finalize_attribution (now : ℤ) (s : Store) (course_id driver_id : String)
    (payment_session_id : String) : Bool × Store :=
  match findCourse s course_id with
  | none => (false, s)
  | some course =>
      if course.status = CourseStatus.ASSIGNED then
        if course.assigned_driver_id = some driver_id then (true, s)
        else (false, s)
      else
        let commission := roundTo2 (course.price_total * COMMISSION_RATE)
        (true,
         updateCourseById s course_id (assignPatch now driver_id commission))

/-- The checkout-session request `initiate_payment` sends to the gateway:
integer minor units plus the metadata tagged on the session. -/
structure StripeSessionRequest where
  unit_amount : ℤ
  currency : String
  metadata_course_id : String
  metadata_driver_id : String
  metadata_claim_token : String
deriving DecidableEq, Repr

/-- The response of a successful `initiate_payment` call, paired with the
gateway request it issued. -/
structure PaymentInitiated where
  request : StripeSessionRequest
  session_id : String
  amount : ℚ
  currency : String
deriving DecidableEq, Repr

/-- `initiate_payment(token, request)`: create a checkout session for the
commission of a course RESERVED by the calling driver whose timer has not
elapsed, and record a pending CommissionPayment. The gateway create call is
modelled as succeeding with the fresh ids `sid` and `pid`; its failure path
re-raises an HTTP 500 before any store write. -/
def initiate_payment (now : ℤ) (s : Store) (token : String)
    (authorization : Option String) (sid pid : String) :
    Except ApiError PaymentInitiated × Store :=
  match get_driver_from_token s authorization with
  | Except.error e => (Except.error e, s)
  | Except.ok driver =>
      match findClaimToken s token with
      | none => (Except.error ⟨404, "Lien invalide"⟩, s)
      | some claim =>
          match findCourse s claim.course_id with
          | none => (Except.error ⟨404, "Course non trouvee"⟩, s)
          | some course =>
              if course.status ≠ CourseStatus.RESERVED then
                (Except.error ⟨409, "Vous devez d abord reserver la course"⟩, s)
              else if course.reserved_by_driver_id ≠ some driver.id then
                (Except.error ⟨403, "Cette course n est pas reservee par vous"⟩,
                 s)
              else if (match course.reserved_until with
                       | some ru => decide (now > ru)
                       | none => false) then
                (Except.error ⟨410, "Votre reservation a expire"⟩, s)
              else
                let commission_amount :=
                  roundTo2 (course.price_total * COMMISSION_RATE)
                let commission_cents := intTrunc (commission_amount * 100)
                let payment : CommissionPayment :=
                  { id := pid
                    course_id := course.id
                    driver_id := driver.id
                    session_id := some sid
                    amount := commission_amount
                    currency := "eur"
                    status := "pending"
                    paid_at := none
                    provider_payment_id := none }
                (Except.ok
                  { request :=
                      { unit_amount := commission_cents
                        currency := "eur"
                        metadata_course_id := course.id
                        metadata_driver_id := driver.id
                        metadata_claim_token := token }
                    session_id := sid
                    amount := commission_amount
                    currency := "eur" },
                 { s with
                   commission_payments := s.commission_payments ++ [payment] })

/-- A Stripe checkout session as returned by `Session.retrieve`. -/
structure StripeSession where
  payment_status : String
  session_status : String
  payment_intent : Option String
  amount_total : ℤ
  currency : String
deriving DecidableEq, Repr

/-- The gateway answer to `Session.retrieve`: either a session or a
StripeError message. -/
inductive GatewayAnswer where
  | ok (session : StripeSession)
  | err (msg : String)
deriving DecidableEq, Repr

/-- The `$set` both payment-check endpoints apply to the CommissionPayment
once the gateway reports the session paid. -/
def paymentPaidPatch (now : ℤ) (payment_intent : Option String)
    (p : CommissionPayment) : CommissionPayment :=
  { p with
    status := "paid"
    paid_at := some now
    provider_payment_id := payment_intent }

/-- The `get_payment_status` response body. -/
structure PaymentStatusResult where
  status : String
  payment_status : String
  course_id : Option String
  amount : ℚ
  currency : Option String
deriving DecidableEq, Repr

/-- `get_payment_status(session_id)` (`GET /payment/status/{session_id}`):
poll the gateway; on `paid` with the local payment not yet paid, finalize the
attribution and mark the payment paid. `cfg` models whether STRIPE_API_KEY
is configured; `gw` is the gateway. -/
def get_payment_status (now : ℤ) (cfg : Bool)
    (gw : String → GatewayAnswer) (s : Store) (session_id : String) :
    Except ApiError PaymentStatusResult × Store :=
  if ¬ cfg then (Except.error ⟨503, "Paiement non configure"⟩, s)
  else
    match findPayment s session_id with
    | none => (Except.error ⟨404, "Paiement non trouve dans la base"⟩, s)
    | some payment =>
        match gw session_id with
        | GatewayAnswer.err msg =>
            (Except.error ⟨500, "Erreur Stripe: " ++ msg⟩, s)
        | GatewayAnswer.ok session =>
            if session.payment_status = "paid" ∧ payment.status ≠ "paid" then
              let s1 := (finalize_attribution now s payment.course_id
                payment.driver_id session_id).2
              let s2 := updatePaymentBySession s1 session_id
                (paymentPaidPatch now session.payment_intent)
              (Except.ok
                { status := "paid"
                  payment_status := "paid"
                  course_id := some payment.course_id
                  amount := payment.amount
                  currency := none },
               s2)
            else
              (Except.ok
                { status := payment.status
                  payment_status := session.payment_status
                  course_id := none
                  amount := payment.amount
                  currency := some payment.currency },
               s)

/-- The `verify_payment` response body. -/
structure VerifyPaymentResult where
  success : Bool
  payment_status : String
  course_id : Option String
  amount : Option ℚ
  currency : Option String
  session_status : Option String
deriving DecidableEq, Repr

/-- `verify_payment(session_id)` (`GET /verify-payment`): same gateway poll
after the Stripe redirect; tolerates a missing local payment record and
swallows StripeErrors into an error envelope instead of raising. -/
def verify_payment (now : ℤ) (cfg : Bool) (gw : String → GatewayAnswer)
    (s : Store) (session_id : String) :
    Except ApiError VerifyPaymentResult × Store :=
  if ¬ cfg then (Except.error ⟨503, "Paiement non configure"⟩, s)
  else
    match gw session_id with
    | GatewayAnswer.err msg =>
        (Except.ok
          { success := false
            payment_status := "error"
            course_id := none
            amount := none
            currency := none
            session_status := none },
         s)
    | GatewayAnswer.ok session =>
        let payment := findPayment s session_id
        if session.payment_status = "paid" then
          let s2 :=
            match payment with
            | some p =>
                if p.status ≠ "paid" then
                  let s1 := (finalize_attribution now s p.course_id
                    p.driver_id session_id).2
                  updatePaymentBySession s1 session_id
                    (paymentPaidPatch now session.payment_intent)
                else s
            | none => s
          (Except.ok
            { success := true
              payment_status := "paid"
              course_id := (payment.map (fun p => p.course_id))
              amount := some (session.amount_total / 100 : ℚ)
              currency := some session.currency
              session_status := none },
           s2)
        else
          (Except.ok
            { success := false
              payment_status := session.payment_status
              course_id := none
              amount := none
              currency := none
              session_status := some session.session_status },
           s)

/-- The `driver_cancel_course` response body. -/
structure CancelResult where
  message : String
  is_late_cancellation : Bool
  commission_refunded : Bool
deriving DecidableEq, Repr

/-- `driver_cancel_course(course_id)`: a driver cancels a course ASSIGNED to
them; a late cancellation (less than one hour before pickup) increments the
driver's `late_cancellation_count`. -/
def driver_cancel_course (parseDT : String → String → Option ℤ) (now : ℤ)
    (s : Store) (authorization : Option String) (course_id : String)
    (reason : Option String) : Except ApiError CancelResult × Store :=
  match get_driver_from_token s authorization with
  | Except.error e => (Except.error e, s)
  | Except.ok driver =>
      match findCourse s course_id with
      | none => (Except.error ⟨404, "Course non trouvee"⟩, s)
      | some course =>
          if course.assigned_driver_id ≠ some driver.id then
            (Except.error ⟨403, "Vous n etes pas assigne a cette course"⟩, s)
          else if course.status ≠ CourseStatus.ASSIGNED then
            (Except.error ⟨400, "Cette course ne peut pas etre annulee"⟩, s)
          else
            let is_late := is_late_cancellation parseDT now course.date
              course.time
            let new_status :=
              if is_late then CourseStatus.CANCELLED_LATE_DRIVER
              else CourseStatus.CANCELLED
            let s1 := updateCourseById s course_id (fun c => { c with
              status := new_status
              cancelled_at := some now
              cancelled_by := some "driver"
              is_late_cancellation := is_late
              admin_notes := some ("Annulation chauffeur"
                ++ (if is_late then " (tardive < 1h)" else "") ++ ": "
                ++ reason.getD "Aucune raison fournie") })
            let s2 :=
              if is_late then
                updateDriverById s1 driver.id (fun d => { d with
                  late_cancellation_count := d.late_cancellation_count + 1 })
              else s1
            (Except.ok
              { message :=
                  if is_late then
                    "Course annulee. Annulation tardive : la commission reste due."
                  else "Course annulee."
                is_late_cancellation := is_late
                commission_refunded := false },
             s2)

/-- `admin_cancel_course_by_client(course_id, data)`: admin records a client
cancellation; the course moves to CANCELLED or CANCELLED_LATE_CLIENT. -/
def admin_cancel_course_by_client (parseDT : String → String → Option ℤ)
    (now : ℤ) (s : Store) (course_id : String)
    (reason admin_note : Option String) :
    Except ApiError (Bool × CourseStatus) × Store :=
  match findCourse s course_id with
  | none => (Except.error ⟨404, "Course non trouvee"⟩, s)
  | some course =>
      let is_late := is_late_cancellation parseDT now course.date course.time
      let new_status :=
        if is_late then CourseStatus.CANCELLED_LATE_CLIENT
        else CourseStatus.CANCELLED
      let s1 := updateCourseById s course_id (fun c => { c with
        status := new_status
        cancelled_at := some now
        cancelled_by := some "client"
        is_late_cancellation := is_late
        admin_notes := some ("Annulation client"
          ++ (if is_late then " (tardive < 1h)" else "") ++ ": "
          ++ reason.getD "Aucune raison" ++ ". Note admin: "
          ++ admin_note.getD "-") })
      (Except.ok (is_late, new_status), s1)

/-- `admin_reset_course_to_open(course_id)`: admin override resetting a
course to OPEN; rejected when the course is ASSIGNED with the commission
already paid. -/
def admin_reset_course_to_open (s : Store) (course_id : String) :
    Except ApiError CourseStatus × Store :=
  match findCourse s course_id with
  | none => (Except.error ⟨404, "Course non trouvee"⟩, s)
  | some course =>
      if course.status = CourseStatus.ASSIGNED ∧ course.commission_paid then
        (Except.error
          ⟨400, "Cannot reset - commission already paid. Consider refund first."⟩,
         s)
      else
        (Except.ok CourseStatus.OPEN,
         updateCourseById s course_id (fun c => { c with
           status := CourseStatus.OPEN
           reserved_by_driver_id := none
           reserved_until := none
           assigned_driver_id := none
           assigned_at := none }))

/-- `admin_cancel_course(course_id)`: unconditional `$set` of status to
CANCELLED (no existence check; a missing id is a no-op update). -/
def admin_cancel_course (s : Store) (course_id : String) :
    CourseStatus × Store :=
  (CourseStatus.CANCELLED,
   updateCourseById s course_id (fun c => { c with
     status := CourseStatus.CANCELLED }))

/-- `admin_mark_course_done(course_id)`: mark an ASSIGNED course DONE. -/
def admin_mark_course_done (s : Store) (course_id : String) :
    Except ApiError CourseStatus × Store :=
  match findCourse s course_id with
  | none => (Except.error ⟨404, "Course non trouvee"⟩, s)
  | some course =>
      if course.status ≠ CourseStatus.ASSIGNED then
        (Except.error
          ⟨400, "La course doit etre attribuee avant d etre terminee"⟩, s)
      else
        (Except.ok CourseStatus.DONE,
         updateCourseById s course_id (fun c => { c with
           status := CourseStatus.DONE }))

/-- `admin_create_course(data)`: insert a new OPEN course (with its derived
`commission_amount`) and a fresh claim token. -/
def admin_create_course (now : ℤ) (s : Store) (course_id token_id tok : String)
    (client_name client_email client_phone pickup_address dropoff_address
      date time : String) (distance_km : Option ℚ) (price_total : ℚ)
    (notes : Option String) : Store :=
  let course : Course :=
    { id := course_id
      client_name := client_name
      client_email := client_email
      client_phone := client_phone
      pickup_address := pickup_address
      dropoff_address := dropoff_address
      date := date
      time := time
      distance_km := distance_km
      price_total := price_total
      notes := notes
      admin_notes := none
      status := CourseStatus.OPEN
      reserved_by_driver_id := none
      reserved_until := none
      assigned_driver_id := none
      assigned_at := none
      commission_rate := COMMISSION_RATE
      commission_amount := roundTo2 (price_total * COMMISSION_RATE)
      commission_paid := false
      commission_paid_at := none
      cancelled_at := none
      cancelled_by := none
      is_late_cancellation := false }
  let claim : ClaimToken :=
    { id := token_id
      course_id := course_id
      token := tok
      expires_at := now + CLAIM_TOKEN_EXPIRY_MINUTES * 60 }
  { s with
    courses := s.courses ++ [course]
    claim_tokens := s.claim_tokens ++ [claim] }

/-! ## Sample documents used by the concrete witnesses -/

/-- A concrete OPEN course. -/
def exCourse : Course :=
  { id := "c1"
    client_name := "Alice"
    client_email := "alice@example.fr"
    client_phone := "0600000000"
    pickup_address := "12 Rue de Paris, 95700 Roissy-en-France"
    dropoff_address := "10 Avenue Foch, 75116 Paris"
    date := "2026-01-01"
    time := "10:00"
    distance_km := some 20
    price_total := 69
    notes := some "bagages"
    admin_notes := none
    status := CourseStatus.OPEN
    reserved_by_driver_id := none
    reserved_until := none
    assigned_driver_id := none
    assigned_at := none
    commission_rate := COMMISSION_RATE
    commission_amount := 69 / 10
    commission_paid := false
    commission_paid_at := none
    cancelled_at := none
    cancelled_by := none
    is_late_cancellation := false }

/-- A concrete active driver. -/
def exDriver : Driver :=
  { id := "d1"
    email := "driver@example.fr"
    name := "Driver One"
    is_active := true
    late_cancellation_count := 0 }

/-- A concrete unexpired claim token for `exCourse`. -/
def exToken : ClaimToken :=
  { id := "t1", course_id := "c1", token := "tok1", expires_at := 10000 }

/-- A store holding the OPEN course, the active driver and the token. -/
def exStore : Store :=
  { courses := [exCourse]
    drivers := [exDriver]
    claim_tokens := [exToken]
    commission_payments := [] }

/-- `exCourse` already ASSIGNED to `exDriver`, commission paid. -/
def exAssignedCourse : Course :=
  { exCourse with
    status := CourseStatus.ASSIGNED
    assigned_driver_id := some "d1"
    assigned_at := some 50
    commission_paid := true
    commission_paid_at := some 50 }

/-- The store with the assigned course. -/
def exAssignedStore : Store :=
  { exStore with courses := [exAssignedCourse] }

/-- The concrete assigned, commission-paid course after `mark-done`. -/
def exDoneCourse : Course := { exAssignedCourse with status := CourseStatus.DONE }

/-- A store holding the commission-paid DONE course. -/
def exDoneStore : Store := { exStore with courses := [exDoneCourse] }

/-- A concrete stand-in for `datetime.fromisoformat` on the sample course:
the pickup instant is 1000, so at `now = 500` the pickup is 500 seconds
away — a late cancellation. -/
def exParseDT : String → String → Option ℤ := fun d t =>
  if d = "2026-01-01" ∧ t = "10:00" then some 1000 else none

/-- The driver already at two late cancellations. -/
def exDriverTwoLate : Driver := { exDriver with late_cancellation_count := 2 }

/-- The assigned course together with that driver. -/
def exLateStore : Store :=
  { courses := [exAssignedCourse]
    drivers := [exDriverTwoLate]
    claim_tokens := [exToken]
    commission_payments := [] }

/-- A gateway session reported paid. -/
def exPaidSession : StripeSession :=
  { payment_status := "paid"
    session_status := "complete"
    payment_intent := some "pi_1"
    amount_total := 690
    currency := "eur" }

/-- A gateway that reports every session paid. -/
def exGateway : String → GatewayAnswer := fun _ => GatewayAnswer.ok exPaidSession

/-- A concrete pending CommissionPayment for the sample course and driver. -/
def exPayment : CommissionPayment :=
  { id := "pay1"
    course_id := "c1"
    driver_id := "d1"
    session_id := some "sess1"
    amount := 69 / 10
    currency := "eur"
    status := "pending"
    paid_at := none
    provider_payment_id := none }

/-- The store holding that pending payment. -/
def exPayStore : Store := { exStore with commission_payments := [exPayment] }

/-- The invariant exactly as the spec states it: at most one of
`reserved_by_driver_id` and `assigned_driver_id` is non-null, and
`commission_paid = true` implies status ASSIGNED. -/
def courseInvariant (c : Course) : Prop :=
  (c.reserved_by_driver_id = none ∨ c.assigned_driver_id = none) ∧
  (c.commission_paid = true → c.status = CourseStatus.ASSIGNED)

/-- The strengthened inductive invariant actually preserved by the code:
`assigned_driver_id` is null whenever the status is OPEN or RESERVED, and
at most one of the two driver fields is set. -/
def strongCourseInv (c : Course) : Prop :=
  ((c.status = CourseStatus.OPEN ∨ c.status = CourseStatus.RESERVED) →
    c.assigned_driver_id = none) ∧
  (c.reserved_by_driver_id = none ∨ c.assigned_driver_id = none)

/-- Every course of the store satisfies the strengthened invariant. -/
def StoreInv (s : Store) : Prop := ∀ c ∈ s.courses, strongCourseInv c

/-! ## Helper lemmas about the store primitives -/

theorem find?_and_of_find? {α : Type} {p q : α → Bool} {l : List α} {a : α}
    (h : l.find? p = some a) (ha : q a = true) :
    l.find? (fun x => p x && q x) = some a := by
  induction l with
  | nil => simp [List.find?] at h
  | cons x xs ih =>
      cases hpx : p x with
      | true =>
          rw [List.find?_cons_of_pos _ hpx] at h
          injection h with h
          subst h
          exact List.find?_cons_of_pos _ (by simp [hpx, ha])
      | false =>
          rw [List.find?_cons_of_neg _ (by simp [hpx])] at h
          rw [List.find?_cons_of_neg _ (by simp [hpx])]
          exact ih h

theorem find?_updateFirst {α : Type} {p q : α → Bool} {l : List α} {a : α}
    (f : α → α) (h : l.find? p = some a)
    (himp : ∀ x, q x = true → p x = true) (hqa : q (f a) = true) :
    (updateFirst l p f).find? q = some (f a) := by
  induction l with
  | nil => simp [List.find?] at h
  | cons x xs ih =>
      cases hpx : p x with
      | true =>
          rw [List.find?_cons_of_pos _ hpx] at h
          injection h with h
          subst h
          simp only [updateFirst, hpx, if_true]
          exact List.find?_cons_of_pos _ hqa
      | false =>
          have hqx : q x = false := by
            cases hqx : q x with
            | true => exact absurd (himp x hqx) (by simp [hpx])
            | false => rfl
          rw [List.find?_cons_of_neg _ (by simp [hpx])] at h
          simp only [updateFirst, hpx, if_false, Bool.false_eq_true]
          rw [List.find?_cons_of_neg _ (by simp [hqx])]
          exact ih h

theorem updateFirst_inv {α : Type} {P : α → Prop} {p : α → Bool} {f : α → α}
    {l : List α} (h : ∀ x ∈ l, P x)
    (hf : ∀ x, p x = true → P x → P (f x)) :
    ∀ x ∈ updateFirst l p f, P x := by
  induction l with
  | nil => intro x hx; simp [updateFirst] at hx
  | cons y ys ih =>
      intro x hx
      cases hpy : p y with
      | true =>
          simp only [updateFirst, hpy, if_true] at hx
          rcases List.mem_cons.mp hx with rfl | hmem
          · exact hf y hpy (h y (List.mem_cons_self y ys))
          · exact h x (List.mem_cons_of_mem y hmem)
      | false =>
          simp only [updateFirst, hpy, if_false, Bool.false_eq_true] at hx
          rcases List.mem_cons.mp hx with rfl | hmem
          · exact h x (List.mem_cons_self x ys)
          · exact ih (fun z hz => h z (List.mem_cons_of_mem y hz)) x hmem

theorem updateFirst_inv_of_find? {α : Type} {P : α → Prop} {p : α → Bool}
    {f : α → α} {l : List α} {a : α} (h : ∀ x ∈ l, P x)
    (hfind : l.find? p = some a) (hfa : P (f a)) :
    ∀ x ∈ updateFirst l p f, P x := by
  induction l with
  | nil => intro x hx; simp [updateFirst] at hx
  | cons y ys ih =>
      intro x hx
      cases hpy : p y with
      | true =>
          rw [List.find?_cons_of_pos _ hpy] at hfind
          injection hfind with hfind
          subst hfind
          simp only [updateFirst, hpy, if_true] at hx
          rcases List.mem_cons.mp hx with rfl | hmem
          · exact hfa
          · exact h x (List.mem_cons_of_mem y hmem)
      | false =>
          rw [List.find?_cons_of_neg _ (by simp [hpy])] at hfind
          simp only [updateFirst, hpy, if_false, Bool.false_eq_true] at hx
          rcases List.mem_cons.mp hx with rfl | hmem
          · exact h x (List.mem_cons_self x ys)
          · exact ih (fun z hz => h z (List.mem_cons_of_mem y hz)) hfind x hmem

theorem findCourse_updateCourseById {s : Store} {cid : String} {c : Course}
    (f : Course → Course) (h : findCourse s cid = some c)
    (hid : (f c).id = c.id) :
    findCourse (updateCourseById s cid f) cid = some (f c) := by
  have h2 : s.courses.find? (fun x => x.id == cid) = some c := h
  have hpc : (c.id == cid) = true := by
    have h3 := List.find?_some h2
    simpa using h3
  show (updateFirst s.courses (fun x => x.id == cid) f).find?
    (fun x => x.id == cid) = some (f c)
  exact find?_updateFirst f h2 (fun x hx => hx) (by rw [hid]; exact hpc)


/-! ## C1: finalize_attribution is idempotent and refuses cross-driver
reassignment -/

/-- C1: for every store state, `finalize_attribution` on a course already
ASSIGNED to the same driver returns success without touching the store; on a
course ASSIGNED to a different driver it returns failure without touching
the store; and running it twice with the same arguments yields the same
result and the same store as running it once (exactly one transition). -/
theorem C1_finalize_idempotent (s : Store) (now now2 : ℤ)
    (cid did psid : String) :
    (∀ c, findCourse s cid = some c → c.status = CourseStatus.ASSIGNED →
      c.assigned_driver_id = some did →
      finalize_attribution now s cid did psid = (true, s)) ∧
    (∀ c, findCourse s cid = some c → c.status = CourseStatus.ASSIGNED →
      c.assigned_driver_id ≠ some did →
      finalize_attribution now s cid did psid = (false, s)) ∧
    finalize_attribution now2 (finalize_attribution now s cid did psid).2
        cid did psid =
      ((finalize_attribution now s cid did psid).1,
       (finalize_attribution now s cid did psid).2) := by
  refine ⟨?_, ?_, ?_⟩
  · intro c hc hst has
    simp [finalize_attribution, hc, hst, has]
  · intro c hc hst has
    simp [finalize_attribution, hc, hst, has]
  · cases hc : findCourse s cid with
    | none => simp [finalize_attribution, hc]
    | some c =>
        by_cases hst : c.status = CourseStatus.ASSIGNED
        · by_cases has : c.assigned_driver_id = some did
          · simp [finalize_attribution, hc, hst, has]
          · simp [finalize_attribution, hc, hst, has]
        · have hfind : findCourse
              (updateCourseById s cid
                (assignPatch now did
                  (roundTo2 (c.price_total * COMMISSION_RATE)))) cid =
              some (assignPatch now did
                (roundTo2 (c.price_total * COMMISSION_RATE)) c) :=
            findCourse_updateCourseById _ hc rfl
          simp [finalize_attribution, hc, hst, hfind, assignPatch]

/-- C1 witness: on the concrete assigned store, a repeat call is a success
no-op. -/
theorem C1_finalize_idempotent_witness :
    finalize_attribution 60 exAssignedStore "c1" "d1" "p1" =
      (true, exAssignedStore) :=
  (C1_finalize_idempotent exAssignedStore 60 60 "c1" "d1" "p1").1
    exAssignedCourse (by rfl) (by rfl) (by rfl)

/-! ## C3: payment authority overrides the reservation timer -/

/-- C3: for every course whose status is not ASSIGNED (whether OPEN,
RESERVED with an elapsed timer, or any other non-ASSIGNED status),
`finalize_attribution` succeeds and assigns the course to the paying driver:
status ASSIGNED, `assigned_driver_id` set, `commission_paid` true,
reservation fields cleared. -/
theorem C3_payment_overrides_timer (s : Store) (now : ℤ)
    (cid did psid : String) (c : Course) (hc : findCourse s cid = some c)
    (hst : c.status ≠ CourseStatus.ASSIGNED) :
    (finalize_attribution now s cid did psid).1 = true ∧
    findCourse (finalize_attribution now s cid did psid).2 cid =
      some { c with
        status := CourseStatus.ASSIGNED
        assigned_driver_id := some did
        assigned_at := some now
        commission_amount := roundTo2 (c.price_total * COMMISSION_RATE)
        commission_paid := true
        commission_paid_at := some now
        reserved_by_driver_id := none
        reserved_until := none } := by
  have hfind : findCourse
      (updateCourseById s cid
        (assignPatch now did (roundTo2 (c.price_total * COMMISSION_RATE))))
      cid =
      some (assignPatch now did (roundTo2 (c.price_total * COMMISSION_RATE))
        c) :=
    findCourse_updateCourseById _ hc rfl
  constructor
  · simp [finalize_attribution, hc, hst]
  · simp [finalize_attribution, hc, hst]
    exact hfind

/-- C3 witness: a RESERVED course whose timer elapsed long ago is still
assigned when the payment confirms. -/
theorem C3_payment_overrides_timer_witness :
    (finalize_attribution 900
      { exStore with
        courses := [{ exCourse with
          status := CourseStatus.RESERVED
          reserved_by_driver_id := some "d1"
          reserved_until := some 280 }] } "c1" "d1" "p1").1 = true ∧
    findCourse (finalize_attribution 900
      { exStore with
        courses := [{ exCourse with
          status := CourseStatus.RESERVED
          reserved_by_driver_id := some "d1"
          reserved_until := some 280 }] } "c1" "d1" "p1").2 "c1" =
      some { exCourse with
        status := CourseStatus.ASSIGNED
        assigned_driver_id := some "d1"
        assigned_at := some 900
        commission_amount := roundTo2 (exCourse.price_total * COMMISSION_RATE)
        commission_paid := true
        commission_paid_at := some 900
        reserved_by_driver_id := none
        reserved_until := none } := by
  have h := C3_payment_overrides_timer
    { exStore with
      courses := [{ exCourse with
        status := CourseStatus.RESERVED
        reserved_by_driver_id := some "d1"
        reserved_until := some 280 }] } 900 "c1" "d1" "p1"
    { exCourse with
      status := CourseStatus.RESERVED
      reserved_by_driver_id := some "d1"
      reserved_until := some 280 } (by rfl) (by decide)
  exact h

/-! ## C8: commission arithmetic -/

theorem intTrunc_intCast (n : ℤ) : intTrunc (n : ℚ) = n := by
  unfold intTrunc
  split <;> simp

theorem roundTo2_mul_100 (q : ℚ) :
    roundTo2 q * 100 = ((roundHalfEven (q * 100) : ℤ) : ℚ) := by
  unfold roundTo2
  field_simp

theorem intTrunc_roundTo2_mul_100 (q : ℚ) :
    ((intTrunc (roundTo2 q * 100) : ℤ) : ℚ) = roundTo2 q * 100 := by
  rw [roundTo2_mul_100, intTrunc_intCast]

theorem roundHalfEven_intCast (n : ℤ) : roundHalfEven ((n : ℤ) : ℚ) = n := by
  unfold roundHalfEven
  rw [Int.floor_intCast]
  norm_num

theorem roundTo2_69 : roundTo2 ((69 : ℚ) * COMMISSION_RATE) = 69 / 10 := by
  have h : (69 : ℚ) * COMMISSION_RATE * 100 = ((690 : ℤ) : ℚ) := by
    norm_num [COMMISSION_RATE]
  unfold roundTo2
  rw [h, roundHalfEven_intCast]
  norm_num

theorem intTrunc_69 :
    intTrunc (roundTo2 ((69 : ℚ) * COMMISSION_RATE) * 100) = 690 := by
  have h : (69 : ℚ) * COMMISSION_RATE * 100 = ((690 : ℤ) : ℚ) := by
    norm_num [COMMISSION_RATE]
  rw [roundTo2_mul_100, intTrunc_intCast, h, roundHalfEven_intCast]

/-- C8: on the success path of `initiate_payment`, the recorded commission
is `round(price_total * rate, 2)` and the amount sent to the gateway is the
integer number of cents equal to 100 times that rounded value; in
particular, for `price_total = 69` and rate `0.10` the commission is `6.90`
and the gateway unit amount is `690` cents. -/
theorem C8_commission_arithmetic (now : ℤ) (s : Store)
    (token : String) (authorization : Option String) (sid pid : String)
    (d : Driver) (ct : ClaimToken) (c : Course)
    (hauth : get_driver_from_token s authorization = Except.ok d)
    (hct : findClaimToken s token = some ct)
    (hc : findCourse s ct.course_id = some c)
    (hres : c.status = CourseStatus.RESERVED)
    (hby : c.reserved_by_driver_id = some d.id)
    (htimer : ∀ ru, c.reserved_until = some ru → ¬ now > ru) :
    (∃ r, (initiate_payment now s token authorization sid pid).1 =
        Except.ok r ∧
      r.amount = roundTo2 (c.price_total * COMMISSION_RATE) ∧
      r.request.unit_amount =
        intTrunc (roundTo2 (c.price_total * COMMISSION_RATE) * 100) ∧
      ((r.request.unit_amount : ℤ) : ℚ) =
        roundTo2 (c.price_total * COMMISSION_RATE) * 100) ∧
    roundTo2 ((69 : ℚ) * COMMISSION_RATE) = 69 / 10 ∧
    intTrunc (roundTo2 ((69 : ℚ) * COMMISSION_RATE) * 100) = 690 := by
  have htimer2 : (match c.reserved_until with
      | some ru => decide (now > ru)
      | none => false) = false := by
    cases hru : c.reserved_until with
    | none => rfl
    | some ru => simpa using htimer ru hru
  have heval : (initiate_payment now s token authorization sid pid).1 =
      Except.ok
        { request :=
            { unit_amount :=
                intTrunc (roundTo2 (c.price_total * COMMISSION_RATE) * 100)
              currency := "eur"
              metadata_course_id := c.id
              metadata_driver_id := d.id
              metadata_claim_token := token }
          session_id := sid
          amount := roundTo2 (c.price_total * COMMISSION_RATE)
          currency := "eur" } := by
    simp [initiate_payment, hauth, hct, hc, hres, hby, htimer2]
  exact ⟨⟨_, heval, rfl, rfl, intTrunc_roundTo2_mul_100 _⟩,
    roundTo2_69, intTrunc_69⟩

/-- C8 witness: the concrete reserved 69-euro course produces a 6.90
commission and a 690-cent gateway amount. -/
theorem C8_commission_arithmetic_witness :
    ∃ r, (initiate_payment 150
        { exStore with
          courses := [{ exCourse with
            status := CourseStatus.RESERVED
            reserved_by_driver_id := some "d1"
            reserved_until := some 280 }] }
        "tok1" (some "Bearer d1") "sess1" "pay1").1 = Except.ok r ∧
      r.amount = 69 / 10 ∧ r.request.unit_amount = 690 := by
  have h := C8_commission_arithmetic 150
    { exStore with
      courses := [{ exCourse with
        status := CourseStatus.RESERVED
        reserved_by_driver_id := some "d1"
        reserved_until := some 280 }] }
    "tok1" (some "Bearer d1") "sess1" "pay1" exDriver exToken
    { exCourse with
      status := CourseStatus.RESERVED
      reserved_by_driver_id := some "d1"
      reserved_until := some 280 }
    (by rfl) (by rfl) (by rfl) (by rfl) (by rfl)
    (by intro ru hru; injection hru with hru; subst hru; decide)
  obtain ⟨⟨r, hr, hamt, hcents, _⟩, h69, h690⟩ := h
  refine ⟨r, hr, ?_, ?_⟩
  · rw [hamt]; exact h69
  · rw [hcents]; exact h690

/-! ## C2: the reserve contract -/

theorem find?_updateFirst_sub {α : Type} {p q : α → Bool} {l : List α}
    {a : α} (f : α → α) (hq : l.find? q = some a) (hpa : p a = true)
    (himp : ∀ x, p x = true → q x = true) (hqfa : q (f a) = true) :
    (updateFirst l p f).find? q = some (f a) := by
  induction l with
  | nil => simp [List.find?] at hq
  | cons y ys ih =>
      cases hqy : q y with
      | true =>
          rw [List.find?_cons_of_pos _ hqy] at hq
          injection hq with hq
          subst hq
          simp only [updateFirst, hpa, if_true]
          exact List.find?_cons_of_pos _ hqfa
      | false =>
          have hpy : p y = false := by
            cases hpy : p y with
            | true => exact absurd (himp y hpy) (by simp [hqy])
            | false => rfl
          rw [List.find?_cons_of_neg _ (by simp [hqy])] at hq
          simp only [updateFirst, hpy, if_false, Bool.false_eq_true]
          rw [List.find?_cons_of_neg _ (by simp [hqy])]
          exact ih hq

/-- C2: the reserve contract. Under a valid authenticated driver, a valid
unexpired claim token, and an existing course: (1) an OPEN course is
reserved through the compare-and-swap conditioned on the persisted status
still being OPEN, setting the caller and a `now + 3 minutes` deadline;
(2) a RESERVED course whose deadline elapsed is first reset to OPEN and the
fresh reservation then proceeds; (3) a RESERVED (unexpired) course held by
the same driver yields an idempotent success carrying the existing
deadline, without mutation; (4) a RESERVED (unexpired) course held by a
different driver yields a 409 conflict without mutation; (5) an ASSIGNED
course yields a 409 conflict without mutation. -/
theorem C2_reserve_contract (now : ℤ) (s : Store) (token : String)
    (authorization : Option String) (d : Driver) (ct : ClaimToken)
    (c : Course)
    (hauth : get_driver_from_token s authorization = Except.ok d)
    (hct : findClaimToken s token = some ct)
    (hexp : ¬ now > ct.expires_at)
    (hc : findCourse s ct.course_id = some c) :
    (c.status = CourseStatus.OPEN →
      reserve_course now s token authorization =
        (Except.ok (ReserveOk.reserved
            (now + RESERVATION_DURATION_MINUTES * 60)
            (roundTo2 (c.price_total * COMMISSION_RATE))),
         { s with
           courses := updateFirst s.courses (casOpenFilter ct.course_id)
             (reservePatch d.id (now + RESERVATION_DURATION_MINUTES * 60)) })) ∧
    (∀ ru, c.status = CourseStatus.RESERVED → c.reserved_until = some ru →
      now > ru →
      (reserve_course now s token authorization).1 =
        Except.ok (ReserveOk.reserved
          (now + RESERVATION_DURATION_MINUTES * 60)
          (roundTo2 (c.price_total * COMMISSION_RATE))) ∧
      findCourse (reserve_course now s token authorization).2 ct.course_id =
        some { c with
          status := CourseStatus.RESERVED
          reserved_by_driver_id := some d.id
          reserved_until := some (now + RESERVATION_DURATION_MINUTES * 60) }) ∧
    (c.status = CourseStatus.RESERVED →
      (∀ ru, c.reserved_until = some ru → ¬ now > ru) →
      c.reserved_by_driver_id = some d.id →
      reserve_course now s token authorization =
        (Except.ok (ReserveOk.alreadyReserved c.reserved_until), s)) ∧
    (c.status = CourseStatus.RESERVED →
      (∀ ru, c.reserved_until = some ru → ¬ now > ru) →
      c.reserved_by_driver_id ≠ some d.id →
      ∃ e, reserve_course now s token authorization = (Except.error e, s) ∧
        e.status_code = 409) ∧
    (c.status = CourseStatus.ASSIGNED →
      ∃ e, reserve_course now s token authorization = (Except.error e, s) ∧
        e.status_code = 409) := by
  have hc2 : s.courses.find? (fun x => x.id == ct.course_id) = some c := hc
  have hcid : (c.id == ct.course_id) = true := by
    have h3 := List.find?_some hc2
    simpa using h3
  refine ⟨?_, ?_, ?_, ?_, ?_⟩
  · -- (1) OPEN
    intro hOpen
    have hsw : check_and_expire_reservation now s c = (c, s) := by
      simp [check_and_expire_reservation, hOpen]
    have hcas : s.courses.find? (casOpenFilter ct.course_id) = some c := by
      have h4 := find?_and_of_find?
        (q := fun x : Course => x.status == CourseStatus.OPEN) hc2
        (by simp [hOpen])
      exact h4
    simp [reserve_course, hauth, hct, hexp, hc, hsw, hOpen,
      find_one_and_update, hcas]
  · -- (2) RESERVED, timer elapsed
    intro ru hres hru hlate
    have hcid2 : c.id = ct.course_id := by simpa using hcid
    have hsw : check_and_expire_reservation now s c =
        ({ c with
           status := CourseStatus.OPEN
           reserved_by_driver_id := none
           reserved_until := none },
         updateCourseById s ct.course_id (fun x => { x with
           status := CourseStatus.OPEN
           reserved_by_driver_id := none
           reserved_until := none })) := by
      unfold check_and_expire_reservation
      rw [if_pos hres, hru]
      dsimp only
      rw [if_pos hlate, hcid2]
    have hfindA : (updateFirst s.courses (fun x => x.id == ct.course_id)
        (fun x => { x with
          status := CourseStatus.OPEN
          reserved_by_driver_id := none
          reserved_until := none })).find? (fun x => x.id == ct.course_id) =
        some { c with
          status := CourseStatus.OPEN
          reserved_by_driver_id := none
          reserved_until := none } :=
      find?_updateFirst _ hc2 (fun x hx => hx) hcid
    have hfindB : (updateFirst s.courses (fun x => x.id == ct.course_id)
        (fun x => { x with
          status := CourseStatus.OPEN
          reserved_by_driver_id := none
          reserved_until := none })).find? (casOpenFilter ct.course_id) =
        some { c with
          status := CourseStatus.OPEN
          reserved_by_driver_id := none
          reserved_until := none } :=
      find?_and_of_find?
        (q := fun x : Course => x.status == CourseStatus.OPEN) hfindA rfl
    have hfindC : (updateFirst
        (updateFirst s.courses (fun x => x.id == ct.course_id)
          (fun x => { x with
            status := CourseStatus.OPEN
            reserved_by_driver_id := none
            reserved_until := none }))
        (casOpenFilter ct.course_id)
        (reservePatch d.id (now + RESERVATION_DURATION_MINUTES * 60))).find?
          (fun x => x.id == ct.course_id) =
        some (reservePatch d.id (now + RESERVATION_DURATION_MINUTES * 60)
          { c with
            status := CourseStatus.OPEN
            reserved_by_driver_id := none
            reserved_until := none }) :=
      find?_updateFirst_sub _ hfindA (by simp [casOpenFilter, hcid])
        (fun x hx => by
          have h7 := (Bool.and_eq_true _ _).mp hx
          exact h7.1)
        hcid
    constructor
    · simp [reserve_course, hauth, hct, hexp, hc, hsw, find_one_and_update,
        updateCourseById, hfindB]
    · simp [reserve_course, hauth, hct, hexp, hc, hsw, find_one_and_update,
        updateCourseById, hfindB]
      exact hfindC
  · -- (3) RESERVED by same driver, unexpired
    intro hres hnot hby
    have hsw : check_and_expire_reservation now s c = (c, s) := by
      cases hru : c.reserved_until with
      | none => simp [check_and_expire_reservation, hres, hru]
      | some ru =>
          have h6 := hnot ru hru
          simp [check_and_expire_reservation, hres, hru, h6]
    simp [reserve_course, hauth, hct, hexp, hc, hsw, hres, hby]
  · -- (4) RESERVED by a different driver, unexpired
    intro hres hnot hby
    have hsw : check_and_expire_reservation now s c = (c, s) := by
      cases hru : c.reserved_until with
      | none => simp [check_and_expire_reservation, hres, hru]
      | some ru =>
          have h6 := hnot ru hru
          simp [check_and_expire_reservation, hres, hru, h6]
    have heval : reserve_course now s token authorization =
        (Except.error
          ⟨409, "Course deja reservee par un autre chauffeur"⟩, s) := by
      simp [reserve_course, hauth, hct, hexp, hc, hsw, hres, hby]
    exact ⟨_, heval, rfl⟩
  · -- (5) ASSIGNED
    intro hassigned
    have hsw : check_and_expire_reservation now s c = (c, s) := by
      simp [check_and_expire_reservation, hassigned]
    have heval : reserve_course now s token authorization =
        (Except.error
          ⟨409, "Desole, cette course est deja attribuee a un autre chauffeur"⟩,
         s) := by
      simp [reserve_course, hauth, hct, hexp, hc, hsw, hassigned]
    exact ⟨_, heval, rfl⟩

/-- C2 witness: on the concrete store, the active driver reserves the OPEN
course until `100 + 180 = 280` for a `6.90` commission, through the
OPEN-conditioned update. -/
theorem C2_reserve_contract_witness :
    reserve_course 100 exStore "tok1" (some "Bearer d1") =
      (Except.ok (ReserveOk.reserved 280 (69 / 10)),
       { exStore with
         courses := updateFirst exStore.courses (casOpenFilter "c1")
           (reservePatch "d1" 280) }) := by
  have h := (C2_reserve_contract 100 exStore "tok1" (some "Bearer d1")
    exDriver exToken exCourse (by rfl) (by rfl) (by decide) (by rfl)).1
    (by rfl)
  rw [h]
  norm_num [RESERVATION_DURATION_MINUTES, roundTo2_69]
  exact ⟨roundTo2_69, rfl⟩

/-! ## C7: claim-view masking -/

theorem check_and_expire_cases (now : ℤ) (s : Store) (c : Course) :
    check_and_expire_reservation now s c = (c, s) ∨
    (c.status = CourseStatus.RESERVED ∧
      check_and_expire_reservation now s c =
        ({ c with
           status := CourseStatus.OPEN
           reserved_by_driver_id := none
           reserved_until := none },
         updateCourseById s c.id (fun x => { x with
           status := CourseStatus.OPEN
           reserved_by_driver_id := none
           reserved_until := none }))) := by
  unfold check_and_expire_reservation
  by_cases h1 : c.status = CourseStatus.RESERVED
  · rw [if_pos h1]
    cases h2 : c.reserved_until with
    | none => left; rfl
    | some ru =>
        dsimp only
        by_cases h3 : now > ru
        · right; exact ⟨h1, by rw [if_pos h3]⟩
        · left; rw [if_neg h3]
  · rw [if_neg h1]; left; rfl

/-- C7: for a valid, unexpired claim token on an existing course, the claim
view masks the street addresses, the client phone and email, and the notes
(all null, only city-plus-department locations exposed) while the course is
not ASSIGNED, and exposes all of them once the course is ASSIGNED. -/
theorem C7_claim_masking (now : ℤ) (s : Store) (token : String)
    (ct : ClaimToken) (c : Course)
    (hct : findClaimToken s token = some ct)
    (hexp : ¬ now > ct.expires_at)
    (hc : findCourse s ct.course_id = some c) :
    (c.status ≠ CourseStatus.ASSIGNED →
      ((get_claim_info now s token).1.toOption.map
        (fun i => i.course.pickup_address)) = some none ∧
      ((get_claim_info now s token).1.toOption.map
        (fun i => i.course.dropoff_address)) = some none ∧
      ((get_claim_info now s token).1.toOption.map
        (fun i => i.course.client_phone)) = some none ∧
      ((get_claim_info now s token).1.toOption.map
        (fun i => i.course.client_email)) = some none ∧
      ((get_claim_info now s token).1.toOption.map
        (fun i => i.course.notes)) = some none ∧
      ((get_claim_info now s token).1.toOption.map
        (fun i => i.course.pickup_location)) =
          some (extract_city_department c.pickup_address) ∧
      ((get_claim_info now s token).1.toOption.map
        (fun i => i.course.dropoff_location)) =
          some (extract_city_department c.dropoff_address) ∧
      ((get_claim_info now s token).1.toOption.map
        (fun i => i.is_assigned)) = some false) ∧
    (c.status = CourseStatus.ASSIGNED →
      ((get_claim_info now s token).1.toOption.map
        (fun i => i.course.pickup_address)) = some (some c.pickup_address) ∧
      ((get_claim_info now s token).1.toOption.map
        (fun i => i.course.dropoff_address)) = some (some c.dropoff_address) ∧
      ((get_claim_info now s token).1.toOption.map
        (fun i => i.course.client_phone)) = some (some c.client_phone) ∧
      ((get_claim_info now s token).1.toOption.map
        (fun i => i.course.client_email)) = some (some c.client_email) ∧
      ((get_claim_info now s token).1.toOption.map
        (fun i => i.course.notes)) = some c.notes ∧
      ((get_claim_info now s token).1.toOption.map
        (fun i => i.is_assigned)) = some true) := by
  constructor
  · intro hA
    rcases check_and_expire_cases now s c with hsw | ⟨hres0, hsw⟩
    · refine ⟨?_, ?_, ?_, ?_, ?_, ?_, ?_, ?_⟩ <;>
        simp [get_claim_info, hct, hexp, hc, hsw, hA, Except.toOption]
    · refine ⟨?_, ?_, ?_, ?_, ?_, ?_, ?_, ?_⟩ <;>
        simp [get_claim_info, hct, hexp, hc, hsw, Except.toOption]
  · intro hA
    have hsw : check_and_expire_reservation now s c = (c, s) := by
      simp [check_and_expire_reservation, hA]
    refine ⟨?_, ?_, ?_, ?_, ?_, ?_⟩ <;>
      simp [get_claim_info, hct, hexp, hc, hsw, hA, Except.toOption]

/-- C7 witness: the claim view of the concrete OPEN course hides the
addresses, phone, email and notes. -/
theorem C7_claim_masking_witness :
    ((get_claim_info 100 exStore "tok1").1.toOption.map
      (fun i => i.course.pickup_address)) = some none ∧
    ((get_claim_info 100 exStore "tok1").1.toOption.map
      (fun i => i.course.client_phone)) = some none ∧
    ((get_claim_info 100 exStore "tok1").1.toOption.map
      (fun i => i.course.client_email)) = some none ∧
    ((get_claim_info 100 exStore "tok1").1.toOption.map
      (fun i => i.course.notes)) = some none := by
  have hm := (C7_claim_masking 100 exStore "tok1" exToken exCourse
    (by rfl) (by decide) (by rfl)).1 (by decide)
  exact ⟨hm.1, hm.2.2.1, hm.2.2.2.1, hm.2.2.2.2.1⟩

/-! ## C6: the admin reset-to-open guard -/


/-- C6 counterexample: a commission-paid course whose status is DONE is NOT
rejected by the admin reset: the reset succeeds and mutates the course back
to OPEN (with `commission_paid` left true), contradicting the claim that
every commission-paid course is rejected regardless of status. -/
theorem C6_reset_counterexample :
    exDoneCourse.commission_paid = true ∧
    (admin_reset_course_to_open exDoneStore "c1").1 =
      Except.ok CourseStatus.OPEN ∧
    findCourse (admin_reset_course_to_open exDoneStore "c1").2 "c1" =
      some { exDoneCourse with
        status := CourseStatus.OPEN
        reserved_by_driver_id := none
        reserved_until := none
        assigned_driver_id := none
        assigned_at := none } := by
  refine ⟨rfl, rfl, rfl⟩

/-- C6 amended: the reset is rejected (leaving the store unchanged) exactly
when the course's status is ASSIGNED and its commission is paid; a
commission-paid course in any other status is reset. -/
theorem C6_reset_guard_assigned (s : Store) (cid : String) (c : Course)
    (hc : findCourse s cid = some c)
    (hst : c.status = CourseStatus.ASSIGNED)
    (hpaid : c.commission_paid = true) :
    admin_reset_course_to_open s cid =
      (Except.error
        ⟨400, "Cannot reset - commission already paid. Consider refund first."⟩,
       s) := by
  simp [admin_reset_course_to_open, hc, hst, hpaid]

/-- C6 witness: the reset of the concrete ASSIGNED paid course is rejected
with HTTP 400 and no mutation. -/
theorem C6_reset_guard_assigned_witness :
    admin_reset_course_to_open exAssignedStore "c1" =
      (Except.error
        ⟨400, "Cannot reset - commission already paid. Consider refund first."⟩,
       exAssignedStore) :=
  C6_reset_guard_assigned exAssignedStore "c1" exAssignedCourse
    (by rfl) (by rfl) (by rfl)

/-! ## C5: late-cancellation threshold deactivation -/

/-- C5 evaluation at the failing input: a third late driver cancellation
brings `late_cancellation_count` to the threshold 3, yet the driver's
`is_active` flag is still true — the code performs no deactivation, while
its own notification copy promises automatic deactivation at 3. -/
theorem C5_no_deactivation_at_threshold :
    ((driver_cancel_course exParseDT 500 exLateStore (some "Bearer d1") "c1"
        none).1.toOption.map (fun r => r.is_late_cancellation)) = some true ∧
    findDriver (driver_cancel_course exParseDT 500 exLateStore
        (some "Bearer d1") "c1" none).2 "d1" =
      some { exDriverTwoLate with late_cancellation_count := 3 } ∧
    (findDriver (driver_cancel_course exParseDT 500 exLateStore
        (some "Bearer d1") "c1" none).2 "d1").map (fun d => d.is_active) =
      some true := by
  refine ⟨rfl, rfl, rfl⟩

/-! ## C9: check_payment_status versus verify_payment -/


/-- C9 counterexample: for a session id with no local CommissionPayment
record, the two operations do not behave identically: `get_payment_status`
rejects with HTTP 404, while `verify_payment` answers with a success
envelope — so the claim that they produce equivalent results and error
behaviour for every store state is false. -/
theorem C9_divergence_counterexample :
    (∃ e, (get_payment_status 100 true exGateway exStore "sess1").1 =
        Except.error e ∧ e.status_code = 404) ∧
    ((verify_payment 100 true exGateway exStore "sess1").1.toOption.map
      (fun r => r.success)) = some true := by
  exact ⟨⟨⟨404, "Paiement non trouve dans la base"⟩, rfl, rfl⟩, rfl⟩

/-- C9 amended: whenever the local CommissionPayment record for the session
exists, the two operations have identical store side effects — they call
`finalize_attribution` and mark the payment paid exactly when the gateway
reports the session paid and the local payment is not yet paid — though
their response envelopes still differ. -/
theorem C9_same_store_effects (now : ℤ) (cfg : Bool)
    (gw : String → GatewayAnswer) (s : Store) (sid : String)
    (p : CommissionPayment) (hp : findPayment s sid = some p) :
    (get_payment_status now cfg gw s sid).2 =
      (verify_payment now cfg gw s sid).2 := by
  by_cases hcfg : cfg
  · cases hgw : gw sid with
    | err m => simp [get_payment_status, verify_payment, hcfg, hgw, hp]
    | ok session =>
        by_cases hps : session.payment_status = "paid"
        · by_cases hst : p.status = "paid"
          · simp [get_payment_status, verify_payment, hcfg, hgw, hp, hps, hst]
          · simp [get_payment_status, verify_payment, hcfg, hgw, hp, hps, hst]
        · simp [get_payment_status, verify_payment, hcfg, hgw, hp, hps]
  · simp [get_payment_status, verify_payment, hcfg]


/-- C9 witness: with the pending payment present, both endpoints leave the
store in the same state. -/
theorem C9_same_store_effects_witness :
    (get_payment_status 100 true exGateway exPayStore "sess1").2 =
      (verify_payment 100 true exGateway exPayStore "sess1").2 :=
  C9_same_store_effects 100 true exGateway exPayStore "sess1" exPayment
    (by rfl)

/-! ## C10: every commission computation uses the module-level constant -/

/-- C10: the commission produced by the claim view, the reservation
response, `initiate_payment` and `finalize_attribution` is
`round(price_total * 0.10, 2)` for an arbitrary course `c` — in particular
`c.commission_rate` is unconstrained, so a course stored with any other
`commission_rate` value is still charged the module-constant rate 0.10; the
claim view also reports the constant 0.10 as the rate. -/
theorem C10_constant_commission_rate (now : ℤ) (s : Store) (token : String)
    (authorization : Option String) (sid pid cid did psid : String)
    (d : Driver) (ct : ClaimToken) (c : Course) :
    (findClaimToken s token = some ct → ¬ now > ct.expires_at →
      findCourse s ct.course_id = some c →
      ((get_claim_info now s token).1.toOption.map
        (fun i => i.commission_amount)) =
          some (roundTo2 (c.price_total * (1 / 10))) ∧
      ((get_claim_info now s token).1.toOption.map
        (fun i => i.commission_rate)) = some (1 / 10)) ∧
    (get_driver_from_token s authorization = Except.ok d →
      findClaimToken s token = some ct → ¬ now > ct.expires_at →
      findCourse s ct.course_id = some c → c.status = CourseStatus.OPEN →
      (reserve_course now s token authorization).1 =
        Except.ok (ReserveOk.reserved
          (now + RESERVATION_DURATION_MINUTES * 60)
          (roundTo2 (c.price_total * (1 / 10))))) ∧
    (get_driver_from_token s authorization = Except.ok d →
      findClaimToken s token = some ct →
      findCourse s ct.course_id = some c →
      c.status = CourseStatus.RESERVED →
      c.reserved_by_driver_id = some d.id →
      (∀ ru, c.reserved_until = some ru → ¬ now > ru) →
      ((initiate_payment now s token authorization sid pid).1.toOption.map
        (fun r => r.amount)) = some (roundTo2 (c.price_total * (1 / 10))) ∧
      ((initiate_payment now s token authorization sid pid).1.toOption.map
        (fun r => r.request.unit_amount)) =
          some (intTrunc (roundTo2 (c.price_total * (1 / 10)) * 100))) ∧
    (findCourse s cid = some c → c.status ≠ CourseStatus.ASSIGNED →
      (findCourse (finalize_attribution now s cid did psid).2 cid).map
        (fun x => x.commission_amount) =
          some (roundTo2 (c.price_total * (1 / 10)))) := by
  refine ⟨?_, ?_, ?_, ?_⟩
  · intro hct hexp hc
    rcases check_and_expire_cases now s c with hsw | ⟨hres0, hsw⟩ <;>
      refine ⟨?_, ?_⟩ <;>
      simp [get_claim_info, hct, hexp, hc, hsw, Except.toOption,
        COMMISSION_RATE]
  · intro hauth hct hexp hc hOpen
    have hc2 : s.courses.find? (fun x => x.id == ct.course_id) = some c := hc
    have hsw : check_and_expire_reservation now s c = (c, s) := by
      simp [check_and_expire_reservation, hOpen]
    have hcas : s.courses.find? (casOpenFilter ct.course_id) = some c := by
      have h4 := find?_and_of_find?
        (q := fun x : Course => x.status == CourseStatus.OPEN) hc2
        (by simp [hOpen])
      exact h4
    simp [reserve_course, hauth, hct, hexp, hc, hsw, hOpen,
      find_one_and_update, hcas, COMMISSION_RATE]
  · intro hauth hct hc hres hby htimer
    have htimer2 : (match c.reserved_until with
        | some ru => decide (now > ru)
        | none => false) = false := by
      cases hru : c.reserved_until with
      | none => rfl
      | some ru => simpa using htimer ru hru
    refine ⟨?_, ?_⟩ <;>
      simp [initiate_payment, hauth, hct, hc, hres, hby, htimer2,
        Except.toOption, COMMISSION_RATE]
  · intro hc hst
    have hfind : findCourse
        (updateCourseById s cid
          (assignPatch now did (roundTo2 (c.price_total * COMMISSION_RATE))))
        cid =
        some (assignPatch now did
          (roundTo2 (c.price_total * COMMISSION_RATE)) c) :=
      findCourse_updateCourseById _ hc rfl
    simp only [COMMISSION_RATE, one_div] at hfind
    simp [finalize_attribution, hc, hst, COMMISSION_RATE]
    exact ⟨_, hfind, rfl⟩

/-- C10 witness: the concrete store's claim view charges `6.90` on the
69-euro course and reports rate `0.10`. -/
theorem C10_constant_commission_rate_witness :
    ((get_claim_info 100 exStore "tok1").1.toOption.map
      (fun i => i.commission_amount)) = some (69 / 10) ∧
    ((get_claim_info 100 exStore "tok1").1.toOption.map
      (fun i => i.commission_rate)) = some (1 / 10) := by
  have h := (C10_constant_commission_rate 100 exStore "tok1" none "x" "x"
    "x" "x" "x" exDriver exToken exCourse).1 (by rfl) (by decide) (by rfl)
  refine ⟨?_, h.2⟩
  rw [h.1]
  exact congrArg some roundTo2_69

/-! ## C4: the course invariant -/


/-- C4 counterexample: `admin_mark_course_done` maps a state satisfying the
spec's course invariant (the concrete paid ASSIGNED course) to one that
violates it — a DONE course with `commission_paid` still true — so the
claimed invariant is not maintained by every lifecycle operation. -/
theorem C4_invariant_counterexample :
    courseInvariant exAssignedCourse ∧
    findCourse (admin_mark_course_done exAssignedStore "c1").2 "c1" =
      some { exAssignedCourse with status := CourseStatus.DONE } ∧
    ¬ courseInvariant { exAssignedCourse with status := CourseStatus.DONE } := by
  refine ⟨⟨Or.inl rfl, fun _ => rfl⟩, rfl, fun h => ?_⟩
  have h2 := h.2 rfl
  simp at h2

theorem storeInv_sweep (now : ℤ) (s : Store) (c0 : Course) (hs : StoreInv s)
    (hfind : s.courses.find? (fun y => y.id == c0.id) = some c0) :
    StoreInv (check_and_expire_reservation now s c0).2 := by
  rcases check_and_expire_cases now s c0 with hsw | ⟨hres0, hsw⟩
  · rw [hsw]; exact hs
  · rw [hsw]
    intro x hx
    have hmem : c0 ∈ s.courses := List.mem_of_find?_eq_some hfind
    have hAn : c0.assigned_driver_id = none := (hs c0 hmem).1 (Or.inr hres0)
    exact updateFirst_inv_of_find? hs hfind ⟨fun _ => hAn, Or.inr hAn⟩ x hx

theorem storeInv_cas (s : Store) (cid did : String) (ru : ℤ)
    (hs : StoreInv s) :
    StoreInv (find_one_and_update s (casOpenFilter cid)
      (reservePatch did ru)).2 := by
  unfold find_one_and_update
  cases hfind : s.courses.find? (casOpenFilter cid) with
  | none => exact hs
  | some cc =>
      intro x hx
      refine updateFirst_inv hs ?_ x hx
      intro y hy hyP
      have h7 := (Bool.and_eq_true _ _).mp hy
      have hyO : y.status = CourseStatus.OPEN := by simpa using h7.2
      have hyA : y.assigned_driver_id = none := hyP.1 (Or.inl hyO)
      exact ⟨fun _ => hyA, Or.inr hyA⟩

/-- C4 amended: what every lifecycle operation (reserve, finalize, driver
and client cancellation, admin reset / cancel / mark-done) preserves is the
mutual-exclusion half of the invariant, in its inductive strengthening
`StoreInv`; in particular every reachable store keeps at most one of
`reserved_by_driver_id` and `assigned_driver_id` non-null on every course.
The `commission_paid → ASSIGNED` half is not an invariant (see the
counterexample). -/
theorem C4_mutual_exclusion_preserved
    (parseDT : String → String → Option ℤ) (now : ℤ) (s : Store)
    (token cid did psid : String) (authorization : Option String)
    (reason adminNote : Option String) (hs : StoreInv s) :
    (∀ c ∈ s.courses,
      c.reserved_by_driver_id = none ∨ c.assigned_driver_id = none) ∧
    StoreInv (reserve_course now s token authorization).2 ∧
    StoreInv (finalize_attribution now s cid did psid).2 ∧
    StoreInv (driver_cancel_course parseDT now s authorization cid reason).2 ∧
    StoreInv
      (admin_cancel_course_by_client parseDT now s cid reason adminNote).2 ∧
    StoreInv (admin_reset_course_to_open s cid).2 ∧
    StoreInv (admin_cancel_course s cid).2 ∧
    StoreInv (admin_mark_course_done s cid).2 := by
  refine ⟨fun c hc => (hs c hc).2, ?_, ?_, ?_, ?_, ?_, ?_, ?_⟩
  · -- reserve_course
    unfold reserve_course
    cases hauthE : get_driver_from_token s authorization with
    | error e => exact hs
    | ok d =>
        dsimp only
        cases hctE : findClaimToken s token with
        | none => exact hs
        | some ct =>
            dsimp only
            split
            · exact hs
            · cases hc0E : findCourse s ct.course_id with
              | none => exact hs
              | some c0 =>
                  have hfind0 : s.courses.find? (fun y => y.id == c0.id) =
                      some c0 := by
                    have hcid2 : c0.id = ct.course_id := by
                      simpa using List.find?_some
                        (show s.courses.find? (fun y => y.id == ct.course_id)
                          = some c0 from hc0E)
                    rw [hcid2]
                    exact hc0E
                  have hs1 : StoreInv
                      (check_and_expire_reservation now s c0).2 :=
                    storeInv_sweep now s c0 hs hfind0
                  dsimp only
                  split
                  · exact hs1
                  · split
                    · split
                      · exact hs1
                      · exact hs1
                    · split
                      · exact hs1
                      · have hcas := storeInv_cas
                          (check_and_expire_reservation now s c0).2
                          ct.course_id d.id
                          (now + RESERVATION_DURATION_MINUTES * 60) hs1
                        split
                        · exact hcas
                        · exact hcas
  · -- finalize_attribution
    unfold finalize_attribution
    cases hcE : findCourse s cid with
    | none => exact hs
    | some c0 =>
        dsimp only
        split
        · split
          · exact hs
          · exact hs
        · intro x hx
          refine updateFirst_inv hs ?_ x hx
          intro y _ hyP
          refine ⟨fun h => ?_, Or.inl rfl⟩
          simp [assignPatch] at h
  · -- driver_cancel_course
    unfold driver_cancel_course
    cases hauthE : get_driver_from_token s authorization with
    | error e => exact hs
    | ok d =>
        dsimp only
        cases hcE : findCourse s cid with
        | none => exact hs
        | some c0 =>
            dsimp only
            split
            · exact hs
            · split
              · exact hs
              · dsimp only
                have hs1 : StoreInv (updateCourseById s cid (fun c =>
                    { c with
                      status :=
                        if is_late_cancellation parseDT now c0.date c0.time
                        then CourseStatus.CANCELLED_LATE_DRIVER
                        else CourseStatus.CANCELLED
                      cancelled_at := some now
                      cancelled_by := some "driver"
                      is_late_cancellation :=
                        is_late_cancellation parseDT now c0.date c0.time
                      admin_notes := some ("Annulation chauffeur"
                        ++ (if is_late_cancellation parseDT now c0.date
                              c0.time then " (tardive < 1h)" else "")
                        ++ ": " ++ reason.getD "Aucune raison fournie") })) := by
                  intro x hx
                  refine updateFirst_inv hs ?_ x hx
                  intro y _ hyP
                  refine ⟨fun h => ?_, hyP.2⟩
                  by_cases hl :
                      is_late_cancellation parseDT now c0.date c0.time = true
                  · simp [hl] at h
                  · simp [hl] at h
                split
                · rename_i hl
                  simp only [hl, if_true] at hs1 ⊢
                  exact hs1
                · rename_i hl
                  simp only [if_neg hl] at hs1
                  exact hs1
  · -- admin_cancel_course_by_client
    unfold admin_cancel_course_by_client
    cases hcE : findCourse s cid with
    | none => exact hs
    | some c0 =>
        dsimp only
        intro x hx
        refine updateFirst_inv hs ?_ x hx
        intro y _ hyP
        refine ⟨fun h => ?_, hyP.2⟩
        by_cases hl : is_late_cancellation parseDT now c0.date c0.time = true
        · simp [hl] at h
        · simp [hl] at h
  · -- admin_reset_course_to_open
    unfold admin_reset_course_to_open
    cases hcE : findCourse s cid with
    | none => exact hs
    | some c0 =>
        dsimp only
        split
        · exact hs
        · intro x hx
          refine updateFirst_inv hs ?_ x hx
          intro y _ hyP
          exact ⟨fun _ => rfl, Or.inl rfl⟩
  · -- admin_cancel_course
    unfold admin_cancel_course
    intro x hx
    refine updateFirst_inv hs ?_ x hx
    intro y _ hyP
    refine ⟨fun h => ?_, hyP.2⟩
    simp at h
  · -- admin_mark_course_done
    unfold admin_mark_course_done
    cases hcE : findCourse s cid with
    | none => exact hs
    | some c0 =>
        dsimp only
        split
        · exact hs
        · intro x hx
          refine updateFirst_inv hs ?_ x hx
          intro y _ hyP
          refine ⟨fun h => ?_, hyP.2⟩
          simp at h

/-- C4 witness: the concrete store satisfies the strengthened invariant and
keeps it across a concrete reserve call. -/
theorem C4_mutual_exclusion_preserved_witness :
    StoreInv (reserve_course 100 exStore "tok1" (some "Bearer d1")).2 :=
  (C4_mutual_exclusion_preserved exParseDT 100 exStore "tok1" "c1" "d1" "p1"
    (some "Bearer d1") none none
    (by
      intro c hc
      have hce : c = exCourse := by simpa [exStore] using hc
      subst hce
      exact ⟨fun _ => rfl, Or.inl rfl⟩)).2.1

end VtcApp
